import Mathlib

/-!
Verification of the security core of `generate_diagram.py` (Azure diagram
generator).  The Python source is shallowly embedded: the policy tables become
`List String` constants, the AST-based validator becomes a recursive visitor
over a small Python-AST type, the string sanitizers operate on `List Char`
(Python strings are sequences of code points), filesystem paths are lists of
path components, and the sandboxed executor is a pure function parameterized
by the outcome of the child process and of the final unlink, which are
environmental.
-/

/-! ## Policy tables (module-level constants of the script) -/

/-- `ALLOWED_IMPORTS` from the script: the full whitelist of module names. -/
def ALLOWED_IMPORTS : List String :=
  ["diagrams",
   "diagrams.azure",
   "diagrams.azure.aimachinelearning",
   "diagrams.azure.analytics",
   "diagrams.azure.azurestack",
   "diagrams.azure.blockchain",
   "diagrams.azure.compute",
   "diagrams.azure.containers",
   "diagrams.azure.database",
   "diagrams.azure.databases",
   "diagrams.azure.devops",
   "diagrams.azure.general",
   "diagrams.azure.identity",
   "diagrams.azure.integration",
   "diagrams.azure.intune",
   "diagrams.azure.iot",
   "diagrams.azure.managementgovernance",
   "diagrams.azure.migration",
   "diagrams.azure.mixedreality",
   "diagrams.azure.ml",
   "diagrams.azure.monitor",
   "diagrams.azure.network",
   "diagrams.azure.networking",
   "diagrams.azure.security",
   "diagrams.azure.storage",
   "diagrams.azure.web",
   "diagrams.onprem",
   "diagrams.onprem.client",
   "diagrams.onprem.compute",
   "diagrams.onprem.database",
   "diagrams.onprem.network",
   "diagrams.generic",
   "diagrams.generic.blank",
   "diagrams.generic.compute",
   "diagrams.generic.database",
   "diagrams.generic.storage",
   "diagrams.programming",
   "diagrams.programming.flowchart",
   "diagrams.saas",
   "diagrams.saas.chat",
   "diagrams.saas.erp",
   "diagrams.saas.cdn",
   "diagrams.custom",
   "graphviz",
   "matplotlib",
   "matplotlib.pyplot",
   "matplotlib.patches",
   "matplotlib.dates",
   "numpy",
   "svgwrite",
   "cairosvg",
   "datetime",
   "collections",
   "pathlib"]

/-- `BLOCKED_BUILTINS` from the script. -/
def BLOCKED_BUILTINS : List String :=
  ["exec", "eval", "compile", "open", "__import__",
   "globals", "locals", "vars", "dir",
   "getattr", "setattr", "delattr", "hasattr",
   "breakpoint", "input", "help"]

/-- `BLOCKED_ATTRIBUTES` from the script. -/
def BLOCKED_ATTRIBUTES : List String :=
  ["__class__", "__bases__", "__subclasses__", "__globals__",
   "__code__", "__builtins__", "__import__", "__loader__",
   "__spec__", "__dict__", "__mro__", "__init_subclass__"]

/-- `BLOCKED_IMPORTS` from the script: deny-set of base module names. -/
def BLOCKED_IMPORTS : List String :=
  ["os", "sys", "subprocess", "socket", "urllib", "requests",
   "http", "pickle", "shelve", "ctypes", "importlib",
   "shutil", "glob", "fnmatch", "io", "builtins",
   "code", "codeop", "marshal", "types"]

/-- `ALLOWED_OUTPUT_DIRS` from the script. -/
def ALLOWED_OUTPUT_DIRS : List String :=
  [".", "/mnt/user-data/outputs", "/tmp", "~/outputs"]

/-- `EXECUTION_TIMEOUT` from the script (seconds). -/
def EXECUTION_TIMEOUT : Nat := 60

/-! ## Import checking (`CodeValidator._is_allowed_import`) -/

/-- `module_name.split(".")[0]`: the text before the first dot. -/
def baseModule (m : String) : String :=
  String.mk (m.data.takeWhile (fun c => c != '.'))

/-- Python `s.startswith(p)`, on code-point lists. -/
def startsWithStr (p s : String) : Bool :=
  p.data.isPrefixOf s.data

/-- `CodeValidator._is_allowed_import`, parameterized by the allow-set and the
deny-set it reads (the script reads the module-level constants).  Deny check
on the base segment comes first; then exact allow-set membership; then the
loop testing `module_name.startswith(allowed + ".")`. -/
def is_allowed_import_with (allowed blocked : List String) (m : String) : Bool :=
  if blocked.contains (baseModule m) then false
  else if allowed.contains m then true
  else allowed.any (fun a => startsWithStr (a ++ ".") m)

/-- `CodeValidator._is_allowed_import` against the script constants. -/
def is_allowed_import (m : String) : Bool :=
  is_allowed_import_with ALLOWED_IMPORTS BLOCKED_IMPORTS m

/-! ## `sanitize_name` -/

/-- ASCII whitespace matched by the `\s` class of the name regex. -/
def isPythonSpace (c : Char) : Bool :=
  c == ' ' || c == '\t' || c == '\n' || c == '\x0b' || c == '\x0c' || c == '\r'

/-- Character class kept by `sanitize_name`: the regex deletes every character
outside `[a-zA-Z0-9\s\-_.,!?()"]` together with the single quote. -/
def allowedNameChar (c : Char) : Bool :=
  c.isAlpha || c.isDigit || isPythonSpace c ||
    c == '-' || c == '_' || c == '.' || c == ',' || c == '!' || c == '?' ||
    c == '(' || c == ')' || c == '\x27' || c == '"'

/-- `sanitize_name`: drop every character outside the allow-set, then truncate
to 200 characters (`sanitized[:200]`). -/
def sanitize_name (name : String) : String :=
  String.mk ((name.data.filter allowedNameChar).take 200)

/-! ## `sanitize_output` -/

/-- Characters deleted by the first regex of `sanitize_output`:
`/ \ : * ? " < > |`. -/
def isOutputBanned (c : Char) : Bool :=
  c == '/' || c == '\\' || c == ':' || c == '*' || c == '?' || c == '"' ||
    c == '<' || c == '>' || c == '|'

/-- Python `s.replace("..", "")`: scan left to right; on a match skip both
characters and resume scanning after the match. -/
def stripDots : List Char → List Char
  | [] => []
  | [c] => [c]
  | c1 :: c2 :: rest =>
    if c1 = '.' ∧ c2 = '.' then stripDots rest
    else c1 :: stripDots (c2 :: rest)

/-- Whether a character list contains two adjacent dots (the substring `..`). -/
def hasDotDot : List Char → Bool
  | [] => false
  | [_] => false
  | c1 :: c2 :: rest => (c1 == '.' && c2 == '.') || hasDotDot (c2 :: rest)

/-- `sanitize_output`: remove the path-separator and quoting characters, remove
`..` with a single `replace` pass, truncate to 100 characters. -/
def sanitize_output (output : String) : String :=
  String.mk ((stripDots (output.data.filter (fun c => !isOutputBanned c))).take 100)

/-! ## Python AST fragment and the `CodeValidator` visitor

`ast.parse` is environmental; a parsed program is a list of statements, and a
parse failure is the `SyntaxError` branch, so `validate` takes an
`Except String (List PyStmt)`.  The node shapes cover exactly what the
visitor inspects: `Import` (a list of alias names), `ImportFrom` (an optional
source module), `Call` (whose target is a name or an attribute), `Attribute`,
`Name`, plus assignment and compound statements through which `generic_visit`
recurses. -/

inductive PyExpr where
  | nameE (id : String)
  | attributeE (val : PyExpr) (attr : String)
  | callE (func : PyExpr) (args : List PyExpr)
  | constE

inductive PyStmt where
  | importS (names : List String)
  | importFromS (module : Option String) (names : List String)
  | exprS (e : PyExpr)
  | assignS (target : String) (value : PyExpr)
  | compoundS (tests : List PyExpr) (body : List PyStmt)

/-- The four policy tables the validator reads (module-level constants in the
script, passed explicitly here). -/
structure Policies where
  allowedImports : List String
  blockedImports : List String
  blockedBuiltins : List String
  blockedAttributes : List String

/-- The script constants bundled. -/
def defaultPolicies : Policies :=
  ⟨ALLOWED_IMPORTS, BLOCKED_IMPORTS, BLOCKED_BUILTINS, BLOCKED_ATTRIBUTES⟩

/-- Message appended by `visit_Import` / `visit_ImportFrom`. -/
def importErr (m : String) : String :=
  "Blocked import: \x27" ++ m ++ "\x27"

/-- Check performed by `visit_Attribute`. -/
def attrCheck (ps : Policies) (a : String) : List String :=
  if ps.blockedAttributes.contains a then
    ["Blocked attribute access: \x27" ++ a ++ "\x27"]
  else []

/-- Check performed by `visit_Call` on the call target. -/
def callCheck (ps : Policies) (f : PyExpr) : List String :=
  match f with
  | PyExpr.nameE id =>
    if ps.blockedBuiltins.contains id then
      ["Blocked builtin call: \x27" ++ id ++ "()\x27"] else []
  | PyExpr.attributeE _ a =>
    if ps.blockedBuiltins.contains a then
      ["Blocked builtin call: \x27" ++ a ++ "()\x27"] else []
  | _ => []

mutual

/-- Expression traversal: each `visit_*` check runs at its node, then
`generic_visit` recurses into the children, appending findings in order. -/
def visitExpr (ps : Policies) : PyExpr → List String
  | PyExpr.nameE _ => []
  | PyExpr.attributeE v a => attrCheck ps a ++ visitExpr ps v
  | PyExpr.callE f args => callCheck ps f ++ visitExpr ps f ++ visitExprList ps args
  | PyExpr.constE => []

/-- Traversal of a child list of expressions. -/
def visitExprList (ps : Policies) : List PyExpr → List String
  | [] => []
  | e :: rest => visitExpr ps e ++ visitExprList ps rest

end

/-- `visit_Import`: one check per alias in the statement. -/
def checkImportNames (ps : Policies) : List String → List String
  | [] => []
  | n :: rest =>
    (if is_allowed_import_with ps.allowedImports ps.blockedImports n then []
     else [importErr n]) ++ checkImportNames ps rest

mutual

/-- Statement traversal of the validator. -/
def visitStmt (ps : Policies) : PyStmt → List String
  | PyStmt.importS names => checkImportNames ps names
  | PyStmt.importFromS module _ =>
    match module with
    | none => []
    | some m =>
      if is_allowed_import_with ps.allowedImports ps.blockedImports m then []
      else [importErr m]
  | PyStmt.exprS e => visitExpr ps e
  | PyStmt.assignS _ v => visitExpr ps v
  | PyStmt.compoundS tests body => visitExprList ps tests ++ visitStmtList ps body

/-- Traversal of a statement list (the module body). -/
def visitStmtList (ps : Policies) : List PyStmt → List String
  | [] => []
  | s :: rest => visitStmt ps s ++ visitStmtList ps rest

end

/-- `CodeValidator.validate`: a `SyntaxError` from `ast.parse` short-circuits
into a single syntax finding; otherwise the whole tree is visited. -/
def validate (ps : Policies) (parsed : Except String (List PyStmt)) : List String :=
  match parsed with
  | Except.error msg => ["Syntax error: " ++ msg]
  | Except.ok stmts => visitStmtList ps stmts

/-- `validate_code`: `(is_valid, errors)` with `is_valid = (len(errors) == 0)`. -/
def validate_code (parsed : Except String (List PyStmt)) : Bool × List String :=
  let errors := validate defaultPolicies parsed
  (errors.isEmpty, errors)

/-! ## Path confinement (`validate_output_path`)

A filesystem path is modelled as its list of components (each a `List Char`);
an absolute path `/a/b` is `[a-components, b-components]`.  `Path.resolve()`
is modelled as POSIX resolution against the current working directory `cwd`
(symlink following is environmental and not modelled); `Path.expanduser()`
replaces a leading `~` with the `home` directory. -/

/-- Split a character list on a separator, Python `str.split` style:
the empty string yields one empty field. -/
def splitOnChar (sep : Char) : List Char → List (List Char)
  | [] => [[]]
  | c :: rest =>
    match splitOnChar sep rest with
    | [] => [[c]]
    | h :: t => if c = sep then [] :: h :: t else (c :: h) :: t

/-- One step of POSIX path resolution: empty and `.` components are dropped,
`..` pops the last component, anything else is appended. -/
def resolveStep (acc : List (List Char)) (c : List Char) : List (List Char) :=
  if c = [] ∨ c = ['.'] then acc
  else if c = ['.', '.'] then acc.dropLast
  else acc ++ [c]

/-- `Path(p).resolve()` relative to `cwd`: a leading `/` makes the path
absolute, otherwise resolution starts from `cwd`. -/
def resolvePosix (cwd : List (List Char)) (p : List Char) : List (List Char) :=
  let start := if p.head? = some '/' then [] else cwd
  (splitOnChar '/' p).foldl resolveStep start

/-- `Path(d).expanduser().resolve()` for an allowed-directory entry: a leading
`~` is replaced by the home directory, then the path is resolved. -/
def expandResolveDir (cwd home : List (List Char)) (d : String) : List (List Char) :=
  match d.data with
  | '~' :: rest => (splitOnChar '/' rest).foldl resolveStep home
  | _ => resolvePosix cwd d.data

/-- The diagnostic carried by a denial. -/
def allowedDirsMsg : String :=
  "Output path not allowed. Allowed directories: " ++
    String.intercalate ", " ALLOWED_OUTPUT_DIRS

/-- `validate_output_path`: resolve the argument, accept when some allowed
directory (or, as a final fallback, `cwd`) is a component-prefix of it —
`Path.relative_to` succeeds exactly when its argument is equal to the path or
an ancestor of it — otherwise deny with the diagnostic. -/
def validate_output_path (cwd home : List (List Char)) (p : String) :
    Bool × Option String :=
  if ALLOWED_OUTPUT_DIRS.any
      (fun d => (expandResolveDir cwd home d).isPrefixOf (resolvePosix cwd p.data))
  then (true, none)
  else if cwd.isPrefixOf (resolvePosix cwd p.data) then (true, none)
  else (false, some allowedDirsMsg)

/-! ## Sandboxed executor (`execute_diagram_code`)

The subprocess machinery is environmental: the embedding is parameterized by
the outcome of the single `subprocess.run` call (`completed` with an exit
status and captured streams, `TimeoutExpired` after forced termination, or an
exception raised by the spawn itself) and by whether the final
`Path(temp_path).unlink()` succeeds.  An `ExecTrace` records the observable
side effects: whether the temporary file was written, whether a spawn was
attempted, whether the unlink ran, and whether the temporary file still exists
when the call returns. -/

inductive ChildOutcome where
  | completed (returncode : Int) (stdout : String) (stderr : String)
  | timedOut
  | spawnError (msg : String)

/-- Observable side effects of one `execute_diagram_code` call. -/
structure ExecTrace where
  wroteTemp : Bool
  spawnAttempted : Bool
  unlinkAttempted : Bool
  tempExistsAfter : Bool
deriving DecidableEq

/-- `Path(temp_path).unlink()`: may raise. -/
def attempt_unlink (unlinkOk : Bool) : Except String Unit :=
  if unlinkOk then Except.ok () else Except.error "unlink failed"

/-- The `finally` block: try to unlink, swallow any failure (`except: pass`).
Returns the control outcome (an `error` would propagate to the caller) and
whether the temporary file still exists. -/
def cleanup_temp (unlinkOk : Bool) : Except String Unit × Bool :=
  match attempt_unlink unlinkOk with
  | Except.ok _ => (Except.ok (), false)
  | Except.error _ => (Except.ok (), true)

/-- `execute_diagram_code`: re-validate, abort on any violation before writing
or spawning anything; otherwise write the temporary file, spawn once, map the
child outcome to `(success, output_or_error)`, and run the scoped cleanup.  An
`Except.error` result would be an exception escaping to the caller. -/
def execute_diagram_code (parsed : Except String (List PyStmt)) (timeout : Nat)
    (child : ChildOutcome) (unlinkOk : Bool) :
    Except String ((Bool × String) × ExecTrace) :=
  let validated := validate_code parsed
  if validated.1 = false then
    Except.ok ((false, "Code validation failed:\n" ++
        String.intercalate "\n" (validated.2.map (fun e => "  - " ++ e))),
      ⟨false, false, false, false⟩)
  else
    let result : Bool × String :=
      match child with
      | ChildOutcome.completed rc out err =>
        if rc == 0 then (true, out) else (false, "Execution error:\n" ++ err)
      | ChildOutcome.timedOut =>
        (false, "Execution timed out after " ++ toString timeout ++ " seconds")
      | ChildOutcome.spawnError e => (false, "Execution failed: " ++ e)
    match cleanup_temp unlinkOk with
    | (Except.ok _, remains) => Except.ok (result, ⟨true, true, true, remains⟩)
    | (Except.error e, _) => Except.error e

/-! ## Helper lemmas -/

/-- `List.contains` agrees with membership on `String` lists. -/
theorem contains_true_iff (l : List String) (x : String) :
    l.contains x = true ↔ x ∈ l :=
  List.elem_iff

/-- Boolean prefix test agrees with `List.IsPrefix`. -/
theorem isPrefixOf_true_iff {α : Type} [BEq α] [LawfulBEq α] (l1 l2 : List α) :
    l1.isPrefixOf l2 = true ↔ l1 <+: l2 :=
  List.isPrefixOf_iff_prefix

/-- If the output of `stripDots` begins with a dot, so did its input. -/
theorem stripDots_head_dot : (l : List Char) →
    (stripDots l).head? = some '.' → l.head? = some '.'
  | [], h => h
  | [c], h => h
  | c1 :: c2 :: rest, h => by
    rw [stripDots] at h
    by_cases hc : c1 = '.' ∧ c2 = '.'
    · rw [List.head?_cons, hc.1]
    · rw [if_neg hc, List.head?_cons] at h
      rw [List.head?_cons]
      exact h

/-- The output of a single `replace("..", "")` pass never contains `..`:
after the scan emits a dot, the character emitted next cannot be a dot. -/
theorem stripDots_no_dotdot : (l : List Char) → hasDotDot (stripDots l) = false
  | [] => rfl
  | [_] => rfl
  | c1 :: c2 :: rest => by
    rw [stripDots]
    by_cases hc : c1 = '.' ∧ c2 = '.'
    · rw [if_pos hc]
      exact stripDots_no_dotdot rest
    · rw [if_neg hc]
      have ih := stripDots_no_dotdot (c2 :: rest)
      cases hout : stripDots (c2 :: rest) with
      | nil => rfl
      | cons b out =>
        rw [hout] at ih
        rw [hasDotDot, ih, Bool.or_false]
        by_cases h1 : c1 = '.'
        · have hb : b ≠ '.' := by
            intro hb
            apply hc
            refine ⟨h1, ?_⟩
            have : (stripDots (c2 :: rest)).head? = some '.' := by rw [hout, hb]; rfl
            have h2 := stripDots_head_dot (c2 :: rest) this
            simpa using h2
          simp [h1, hb]
        · simp [h1]

/-- A list without `..` is a fixed point of `stripDots`. -/
theorem stripDots_of_no_dotdot : (l : List Char) → hasDotDot l = false → stripDots l = l
  | [], _ => rfl
  | [_], _ => rfl
  | c1 :: c2 :: rest, h => by
    rw [hasDotDot, Bool.or_eq_false_iff] at h
    rw [stripDots, if_neg, stripDots_of_no_dotdot (c2 :: rest) h.2]
    intro hc
    rw [hc.1, hc.2] at h
    simpa using h.1

/-- `stripDots` only deletes characters. -/
theorem stripDots_sublist : (l : List Char) → List.Sublist (stripDots l) l
  | [] => List.Sublist.refl []
  | [c] => List.Sublist.refl [c]
  | c1 :: c2 :: rest => by
    rw [stripDots]
    by_cases hc : c1 = '.' ∧ c2 = '.'
    · rw [if_pos hc]
      exact ((stripDots_sublist rest).cons c2).cons c1
    · rw [if_neg hc]
      exact (stripDots_sublist (c2 :: rest)).cons₂ c1

/-- Truncation cannot create a `..` sequence. -/
theorem hasDotDot_take : (l : List Char) → (n : Nat) →
    hasDotDot l = false → hasDotDot (l.take n) = false
  | [], n, _ => by cases n <;> rfl
  | [c], n, _ => by cases n with
    | zero => rfl
    | succ m => cases m <;> rfl
  | c1 :: c2 :: rest, 0, _ => rfl
  | c1 :: c2 :: rest, 1, _ => rfl
  | c1 :: c2 :: rest, Nat.succ (Nat.succ m), h => by
    rw [hasDotDot, Bool.or_eq_false_iff] at h
    show hasDotDot (c1 :: c2 :: List.take m rest) = false
    have ih := hasDotDot_take (c2 :: rest) (m + 1) h.2
    rw [hasDotDot, h.1, Bool.false_or]
    exact ih

/-- Every character of `sanitize_output s` survived the banned-character
filter. -/
theorem sanitize_output_mem {s : String} {c : Char}
    (h : c ∈ (sanitize_output s).data) : isOutputBanned c = false := by
  have h1 : c ∈ stripDots (s.data.filter (fun c => !isOutputBanned c)) :=
    List.mem_of_mem_take h
  have h2 : c ∈ s.data.filter (fun c => !isOutputBanned c) :=
    (stripDots_sublist _).mem h1
  have h3 := List.of_mem_filter h2
  simpa using h3

/-- The output of `sanitize_output` contains no `..` sequence. -/
theorem sanitize_output_no_dotdot (s : String) :
    hasDotDot (sanitize_output s).data = false :=
  hasDotDot_take _ 100 (stripDots_no_dotdot _)

/-- The output of `sanitize_output` is at most 100 characters long. -/
theorem sanitize_output_length (s : String) : (sanitize_output s).length ≤ 100 := by
  show (List.take 100 _).length ≤ 100
  rw [List.length_take]
  exact Nat.min_le_left _ _

/-- `sanitize_output` is idempotent. -/
theorem sanitize_output_idem (s : String) :
    sanitize_output (sanitize_output s) = sanitize_output s := by
  have hfilter : (sanitize_output s).data.filter (fun c => !isOutputBanned c) =
      (sanitize_output s).data := by
    refine List.filter_eq_self.mpr ?_
    intro a ha
    simpa using sanitize_output_mem ha
  have hstrip : stripDots ((sanitize_output s).data) = (sanitize_output s).data :=
    stripDots_of_no_dotdot _ (sanitize_output_no_dotdot s)
  have htake : ((sanitize_output s).data).take 100 = (sanitize_output s).data :=
    List.take_of_length_le (sanitize_output_length s)
  show String.mk _ = sanitize_output s
  rw [hfilter, hstrip, htake]

/-- Splitting on a separator that does not occur yields a single field. -/
theorem splitOnChar_no_sep {sep : Char} : (l : List Char) → sep ∉ l →
    splitOnChar sep l = [l]
  | [], _ => rfl
  | c :: rest, h => by
    have hc : c ≠ sep := by
      intro hce
      rw [hce] at h
      exact h (List.mem_cons_self sep rest)
    have ih := splitOnChar_no_sep rest (fun hr => h (List.mem_cons_of_mem c hr))
    rw [splitOnChar, ih]
    simp [hc]

/-- Resolving a single relative component: `""` and `"."` give the working
directory itself, any other separator-free, `..`-free component is appended
to it. -/
theorem resolvePosix_single {cwd : List (List Char)} {l : List Char}
    (hslash : ('/' : Char) ∉ l) (hdd : hasDotDot l = false) :
    resolvePosix cwd l = cwd ∨ resolvePosix cwd l = cwd ++ [l] := by
  have hhead : ¬ l.head? = some '/' := by
    intro hh
    exact hslash (List.mem_of_mem_head? hh)
  rw [resolvePosix, if_neg hhead, splitOnChar_no_sep l hslash]
  show resolveStep cwd l = cwd ∨ resolveStep cwd l = cwd ++ [l]
  by_cases h1 : l = [] ∨ l = ['.']
  · left
    rw [resolveStep, if_pos h1]
  · have h2 : l ≠ ['.', '.'] := by
      intro he
      rw [he] at hdd
      exact absurd hdd (by decide)
    right
    rw [resolveStep, if_neg h1, if_neg h2]

/-- The roots against which `validate_output_path` confines a path: the
working directory together with the resolved allowed output directories. -/
def allowedRoots (cwd home : List (List Char)) : List (List (List Char)) :=
  cwd :: ALLOWED_OUTPUT_DIRS.map (expandResolveDir cwd home)

/-- `validate_output_path` accepts exactly the paths whose resolved form has
some allowed root as a component-prefix. -/
theorem validate_output_path_true_iff (cwd home : List (List Char)) (p : String) :
    (validate_output_path cwd home p).1 = true ↔
      ∃ r ∈ allowedRoots cwd home, r <+: resolvePosix cwd p.data := by
  rw [validate_output_path]
  by_cases hA : ALLOWED_OUTPUT_DIRS.any
      (fun d => (expandResolveDir cwd home d).isPrefixOf (resolvePosix cwd p.data)) = true
  · rw [if_pos hA]
    refine iff_of_true rfl ?_
    obtain ⟨d, hd, hp⟩ := List.any_eq_true.mp hA
    exact ⟨expandResolveDir cwd home d,
      List.mem_cons_of_mem _ (List.mem_map_of_mem _ hd),
      (isPrefixOf_true_iff _ _).mp hp⟩
  · rw [if_neg hA]
    by_cases hB : cwd.isPrefixOf (resolvePosix cwd p.data) = true
    · rw [if_pos hB]
      refine iff_of_true rfl ?_
      exact ⟨cwd, List.mem_cons_self _ _, (isPrefixOf_true_iff _ _).mp hB⟩
    · rw [if_neg hB]
      refine iff_of_false (by simp) ?_
      rintro ⟨r, hr, hpre⟩
      rcases List.mem_cons.mp hr with h | h
      · rw [h] at hpre
        exact hB ((isPrefixOf_true_iff _ _).mpr hpre)
      · obtain ⟨d, hd, hde⟩ := List.mem_map.mp h
        exact hA (List.any_eq_true.mpr
          ⟨d, hd, (isPrefixOf_true_iff _ _).mpr (hde ▸ hpre)⟩)

/-- A rejected path always carries the fixed diagnostic naming the allowed
directories. -/
theorem validate_output_path_denied (cwd home : List (List Char)) (p : String)
    (h : (validate_output_path cwd home p).1 = false) :
    (validate_output_path cwd home p).2 = some allowedDirsMsg := by
  rw [validate_output_path] at h ⊢
  by_cases hA : ALLOWED_OUTPUT_DIRS.any
      (fun d => (expandResolveDir cwd home d).isPrefixOf (resolvePosix cwd p.data)) = true
  · rw [if_pos hA] at h
    exact absurd h (by simp)
  · rw [if_neg hA] at h ⊢
    by_cases hB : cwd.isPrefixOf (resolvePosix cwd p.data) = true
    · rw [if_pos hB] at h
      exact absurd h (by simp)
    · rw [if_neg hB]

/-- The scoped cleanup always returns control normally; the temporary file
remains only when the unlink itself failed. -/
theorem cleanup_temp_eq (b : Bool) : cleanup_temp b = (Except.ok (), !b) := by
  cases b <;> rfl

/-- Behaviour of the executor once validation has passed: the temporary file
is written, the spawn is attempted, the cleanup runs, and the child outcome is
mapped to the result. -/
theorem execute_run (parsed : Except String (List PyStmt)) (t : Nat)
    (child : ChildOutcome) (uOk : Bool) (h : (validate_code parsed).1 = true) :
    execute_diagram_code parsed t child uOk = Except.ok
      ((match child with
        | ChildOutcome.completed rc out err =>
          if rc == 0 then (true, out) else (false, "Execution error:\n" ++ err)
        | ChildOutcome.timedOut =>
          (false, "Execution timed out after " ++ toString t ++ " seconds")
        | ChildOutcome.spawnError e => (false, "Execution failed: " ++ e)),
       ⟨true, true, true, !uOk⟩) := by
  cases uOk <;> cases child <;>
    simp [execute_diagram_code, cleanup_temp, attempt_unlink, h]

/-- The timeout diagnostic is distinct from every non-zero-exit diagnostic:
the two fixed prefixes already differ at the eleventh character. -/
theorem timeout_msg_ne_error_msg (t : Nat) (err : String) :
    "Execution timed out after " ++ toString t ++ " seconds" ≠
      "Execution error:\n" ++ err := by
  intro h
  have hd := congrArg String.data h
  rw [String.data_append, String.data_append, String.data_append,
    List.append_assoc] at hd
  have h11 := congrArg (List.take 11) hd
  rw [List.take_append_of_le_length (by decide),
    List.take_append_of_le_length (by decide)] at h11
  exact absurd h11 (by decide)

/-- Characterization of `_is_allowed_import`: deny on the base segment takes
precedence; otherwise exact allow-set membership or a dotted-prefix extension
of an allow-set entry is required. -/
theorem is_allowed_import_with_true_iff (allowed blocked : List String) (m : String) :
    is_allowed_import_with allowed blocked m = true ↔
      (baseModule m ∉ blocked ∧
        (m ∈ allowed ∨ ∃ a ∈ allowed, startsWithStr (a ++ ".") m = true)) := by
  rw [is_allowed_import_with]
  by_cases hb : blocked.contains (baseModule m) = true
  · rw [if_pos hb]
    refine iff_of_false (by simp) ?_
    rintro ⟨hnb, -⟩
    exact hnb ((contains_true_iff _ _).mp hb)
  · rw [if_neg hb]
    have hnb : baseModule m ∉ blocked := fun hmem => hb ((contains_true_iff _ _).mpr hmem)
    by_cases ha : allowed.contains m = true
    · rw [if_pos ha]
      exact iff_of_true rfl ⟨hnb, Or.inl ((contains_true_iff _ _).mp ha)⟩
    · rw [if_neg ha]
      constructor
      · intro hany
        exact ⟨hnb, Or.inr (List.any_eq_true.mp hany)⟩
      · rintro ⟨-, h | h⟩
        · exact absurd ((contains_true_iff _ _).mpr h) ha
        · exact List.any_eq_true.mpr h

/-- The statement traversal is a homomorphism for concatenation: findings from
later statements are collected regardless of earlier findings. -/
theorem visitStmtList_append (ps : Policies) : (l1 l2 : List PyStmt) →
    visitStmtList ps (l1 ++ l2) = visitStmtList ps l1 ++ visitStmtList ps l2
  | [], _ => rfl
  | s :: rest, l2 => by
    rw [List.cons_append]
    show visitStmt ps s ++ visitStmtList ps (rest ++ l2) = _
    rw [visitStmtList_append ps rest l2, ← List.append_assoc]
    rfl

/-- A module consisting only of relative from-imports produces no findings,
whatever the policies are. -/
theorem visitStmtList_relative (ps : Policies) : (l : List (List String)) →
    visitStmtList ps (l.map (fun names => PyStmt.importFromS none names)) = []
  | [] => rfl
  | names :: rest => by
    rw [List.map_cons]
    show visitStmt ps (PyStmt.importFromS none names) ++ _ = []
    rw [visitStmtList_relative ps rest]
    rfl

/-! ## Claims -/

/-- C1: when validation finds at least one violation, `execute_diagram_code`
returns success=false with a diagnostic listing one line per violation, writes
no temporary artifact and attempts no spawn; and on every input a success=true
result implies the defensive re-validation of that exact code found it clean. -/
theorem c1_execute_revalidates (parsed : Except String (List PyStmt)) (t : Nat)
    (child : ChildOutcome) (uOk : Bool) :
    (validate defaultPolicies parsed ≠ [] →
      execute_diagram_code parsed t child uOk = Except.ok
        ((false, "Code validation failed:\n" ++ String.intercalate "\n"
            ((validate defaultPolicies parsed).map (fun e => "  - " ++ e))),
         ⟨false, false, false, false⟩))
    ∧ (∀ (out : String) (tr : ExecTrace),
        execute_diagram_code parsed t child uOk = Except.ok ((true, out), tr) →
          validate defaultPolicies parsed = []) := by
  constructor
  · intro hv
    have h1 : (validate_code parsed).1 = false :=
      Bool.eq_false_iff.mpr (fun hT => hv (List.isEmpty_iff.mp hT))
    simp only [execute_diagram_code]
    rw [if_pos h1]
    rfl
  · intro out tr heq
    by_cases hv : validate defaultPolicies parsed = []
    · exact hv
    · have h1 : (validate_code parsed).1 = false :=
        Bool.eq_false_iff.mpr (fun hT => hv (List.isEmpty_iff.mp hT))
      simp only [execute_diagram_code] at heq
      rw [if_pos h1] at heq
      simp at heq

/-- C1 witness: deny-listed import, concrete run. -/
theorem c1_witness :
    execute_diagram_code (Except.ok [PyStmt.importS ["os"]]) 60 ChildOutcome.timedOut
      true = Except.ok
        ((false, "Code validation failed:\n  - Blocked import: \x27os\x27"),
         ⟨false, false, false, false⟩) := by
  have h := (c1_execute_revalidates (Except.ok [PyStmt.importS ["os"]]) 60
    ChildOutcome.timedOut true).1 (by decide)
  rw [h]
  rfl

/-- C2: a module import is accepted iff its base segment avoids the deny-set
and the full dotted name is an allow-set entry or a dotted extension of one;
deny takes precedence unconditionally, and prefix matching requires a dot
boundary, so only `"pkg.allowed"` being allow-listed rejects
`"pkg.allowedx"`. -/
theorem c2_import_policy :
    (∀ (allowed blocked : List String) (m : String),
      is_allowed_import_with allowed blocked m = true ↔
        (baseModule m ∉ blocked ∧
          (m ∈ allowed ∨ ∃ a ∈ allowed, startsWithStr (a ++ ".") m = true)))
    ∧ (∀ m : String, is_allowed_import m = true ↔
        (baseModule m ∉ BLOCKED_IMPORTS ∧
          (m ∈ ALLOWED_IMPORTS ∨
            ∃ a ∈ ALLOWED_IMPORTS, startsWithStr (a ++ ".") m = true)))
    ∧ is_allowed_import_with ["pkg.allowed"] [] "pkg.allowedx" = false
    ∧ (∀ (allowed blocked : List String) (m : String), baseModule m ∈ blocked →
        is_allowed_import_with allowed blocked m = false) := by
  refine ⟨is_allowed_import_with_true_iff, ?_, by decide, ?_⟩
  · intro m
    exact is_allowed_import_with_true_iff ALLOWED_IMPORTS BLOCKED_IMPORTS m
  · intro allowed blocked m hmem
    cases hres : is_allowed_import_with allowed blocked m with
    | false => rfl
    | true =>
      exact absurd hmem
        (((is_allowed_import_with_true_iff allowed blocked m).mp hres).1)

/-- C2 witness: an allow-listed dotted module is accepted. -/
theorem c2_witness : is_allowed_import "matplotlib.pyplot" = true :=
  ((c2_import_policy).2.1 "matplotlib.pyplot").mpr (by decide)

/-- C3: `sanitize_output` yields at most 100 characters, none of them from the
banned set `/ \ : * ? " < > |`, with no `..` occurrence left, and it is
idempotent. -/
theorem c3_sanitize_output_props (s : String) :
    (sanitize_output s).length ≤ 100
    ∧ (sanitize_output s).data.all (fun c => !isOutputBanned c) = true
    ∧ hasDotDot (sanitize_output s).data = false
    ∧ sanitize_output (sanitize_output s) = sanitize_output s :=
  ⟨sanitize_output_length s,
   List.all_eq_true.mpr (fun _ hc => by simpa using sanitize_output_mem hc),
   sanitize_output_no_dotdot s,
   sanitize_output_idem s⟩

/-- C4: `validate_output_path` accepts exactly the paths whose resolved form
is equal to or below the working directory or one of the allowed roots, and
every denial carries the diagnostic naming the allowed directories. -/
theorem c4_output_path_confinement (cwd home : List (List Char)) (p : String) :
    ((validate_output_path cwd home p).1 = true ↔
      ∃ r ∈ allowedRoots cwd home, r <+: resolvePosix cwd p.data)
    ∧ ((validate_output_path cwd home p).1 = false →
        (validate_output_path cwd home p).2 = some allowedDirsMsg) :=
  ⟨validate_output_path_true_iff cwd home p,
   validate_output_path_denied cwd home p⟩

/-- C4 witness: a system configuration path is denied with the diagnostic. -/
theorem c4_witness :
    (validate_output_path [String.data "home", String.data "u"]
      [String.data "home", String.data "u"] "/etc/passwd").2 = some allowedDirsMsg :=
  (c4_output_path_confinement [String.data "home", String.data "u"]
    [String.data "home", String.data "u"] "/etc/passwd").2 (by decide)

/-- C5: once validation passes, exit status zero maps to success with the
captured standard output, a non-zero status maps to failure with the captured
standard error, a timeout maps to the timeout failure, and the timeout
diagnostic differs from every non-zero-exit diagnostic. -/
theorem c5_child_outcome_mapping (parsed : Except String (List PyStmt)) (t : Nat)
    (rc : Int) (out err : String) (uOk : Bool)
    (h : (validate_code parsed).1 = true) :
    (∃ tr : ExecTrace,
      execute_diagram_code parsed t (ChildOutcome.completed 0 out err) uOk =
        Except.ok ((true, out), tr))
    ∧ (rc ≠ 0 → ∃ tr : ExecTrace,
        execute_diagram_code parsed t (ChildOutcome.completed rc out err) uOk =
          Except.ok ((false, "Execution error:\n" ++ err), tr))
    ∧ (∃ tr : ExecTrace,
        execute_diagram_code parsed t ChildOutcome.timedOut uOk =
          Except.ok ((false,
            "Execution timed out after " ++ toString t ++ " seconds"), tr))
    ∧ (∀ err2 : String,
        "Execution timed out after " ++ toString t ++ " seconds" ≠
          "Execution error:\n" ++ err2) := by
  refine ⟨⟨⟨true, true, true, !uOk⟩, ?_⟩, fun hrc => ⟨⟨true, true, true, !uOk⟩, ?_⟩,
    ⟨⟨true, true, true, !uOk⟩, ?_⟩, timeout_msg_ne_error_msg t⟩
  · rw [execute_run parsed t (ChildOutcome.completed 0 out err) uOk h]
    rfl
  · have hbeq : (rc == 0) = false := beq_eq_false_iff_ne.mpr hrc
    rw [execute_run parsed t (ChildOutcome.completed rc out err) uOk h]
    simp [hbeq]
  · exact execute_run parsed t ChildOutcome.timedOut uOk h

/-- C5 witness: concrete non-zero exit. -/
theorem c5_witness :
    ∃ tr : ExecTrace,
      execute_diagram_code (Except.ok []) 60 (ChildOutcome.completed 1 "" "boom")
        true = Except.ok ((false, "Execution error:\nboom"), tr) :=
  (c5_child_outcome_mapping (Except.ok []) 60 1 "" "boom" true (by decide)).2.1
    (by decide)

/-- C6: on every exit path reached after the temporary artifact was created —
success, spawn failure, non-zero exit, or timeout — the scoped cleanup runs
before the result is returned (so with a cooperating filesystem the artifact
is absent afterwards, in particular after a timeout), a failing unlink is
swallowed rather than raised, and the returned result does not depend on
whether the unlink succeeded. -/
theorem c6_cleanup (parsed : Except String (List PyStmt)) (t : Nat)
    (child : ChildOutcome) (uOk : Bool) (h : (validate_code parsed).1 = true) :
    (∃ res : Bool × String,
      execute_diagram_code parsed t child uOk =
          Except.ok (res, ⟨true, true, true, !uOk⟩)
        ∧ execute_diagram_code parsed t child true =
          Except.ok (res, ⟨true, true, true, false⟩))
    ∧ (cleanup_temp uOk).1 = Except.ok () := by
  refine ⟨⟨_, execute_run parsed t child uOk h, ?_⟩, ?_⟩
  · exact execute_run parsed t child true h
  · rw [cleanup_temp_eq]

/-- C6 witness: concrete timeout with succeeding unlink. -/
theorem c6_witness :
    (∃ res : Bool × String,
      execute_diagram_code (Except.ok []) 60 ChildOutcome.timedOut true =
          Except.ok (res, ⟨true, true, true, !true⟩)
        ∧ execute_diagram_code (Except.ok []) 60 ChildOutcome.timedOut true =
          Except.ok (res, ⟨true, true, true, false⟩))
    ∧ (cleanup_temp true).1 = Except.ok () :=
  c6_cleanup (Except.ok []) 60 ChildOutcome.timedOut true (by decide)

/-- C7: a parse failure yields exactly the one syntax violation and makes
is_valid false without any further checks, while on a parsed module the
findings of consecutive statements are concatenated — collection is
exhaustive, not fail-fast. -/
theorem c7_syntax_short_circuit :
    (∀ (ps : Policies) (e : String),
      validate ps (Except.error e) = ["Syntax error: " ++ e])
    ∧ (∀ (ps : Policies) (l1 l2 : List PyStmt),
        validate ps (Except.ok (l1 ++ l2)) =
          validate ps (Except.ok l1) ++ validate ps (Except.ok l2))
    ∧ (∀ e : String, (validate_code (Except.error e)).1 = false) :=
  ⟨fun _ _ => rfl, fun ps l1 l2 => visitStmtList_append ps l1 l2, fun _ => rfl⟩

/-- C8: `sanitize_name` keeps only characters of the fixed allow-set, in their
original order and unchanged (it is a filter followed by truncation to 200),
dropping semicolons, backticks and other shell metacharacters. -/
theorem c8_sanitize_name (s : String) :
    (sanitize_name s).length ≤ 200
    ∧ List.Sublist (sanitize_name s).data s.data
    ∧ (sanitize_name s).data.all allowedNameChar = true
    ∧ allowedNameChar ';' = false
    ∧ allowedNameChar '\x60' = false
    ∧ (s.data.length ≤ 200 →
        (sanitize_name s).data = s.data.filter allowedNameChar) := by
  refine ⟨?_, ?_, ?_, by decide, by decide, ?_⟩
  · show (List.take 200 _).length ≤ 200
    rw [List.length_take]
    exact Nat.min_le_left _ _
  · exact (List.take_sublist _ _).trans (List.filter_sublist _)
  · exact List.all_eq_true.mpr
      (fun c hc => List.of_mem_filter (List.mem_of_mem_take hc))
  · intro hlen
    show List.take 200 _ = _
    exact List.take_of_length_le ((List.length_filter_le _ _).trans hlen)

/-- C8 witness: metacharacters dropped, permitted characters kept, on a short
concrete input. -/
theorem c8_witness :
    ("ab; \x60rm\x60 (ok)!".data.length ≤ 200)
    ∧ (sanitize_name "ab; \x60rm\x60 (ok)!").data =
        "ab; \x60rm\x60 (ok)!".data.filter allowedNameChar :=
  ⟨by decide, (c8_sanitize_name "ab; \x60rm\x60 (ok)!").2.2.2.2.2 (by decide)⟩

/-- C9: a from-import without a source module (a relative import) records no
finding, so a module whose statements are all relative from-imports passes
validation whatever the allow-set and deny-set are. -/
theorem c9_relative_imports :
    (∀ (ps : Policies) (names : List String),
      visitStmt ps (PyStmt.importFromS none names) = [])
    ∧ (∀ (ps : Policies) (l : List (List String)),
        validate ps
          (Except.ok (l.map (fun names => PyStmt.importFromS none names))) = [])
    ∧ (∀ l : List (List String),
        (validate_code (Except.ok
          (l.map (fun names => PyStmt.importFromS none names)))).1 = true) := by
  refine ⟨fun _ _ => rfl, fun ps l => visitStmtList_relative ps l, fun l => ?_⟩
  have h : validate defaultPolicies
      (Except.ok (l.map (fun names => PyStmt.importFromS none names))) = [] :=
    visitStmtList_relative defaultPolicies l
  show (validate defaultPolicies
    (Except.ok (l.map (fun names => PyStmt.importFromS none names)))).isEmpty = true
  rw [h]
  rfl

/-- C10: the pipeline composition always succeeds — validating the sanitized
output stem returns Allowed with no message, since the stem has no separator
and no `..` and hence resolves to the working directory or a child of it. -/
theorem c10_sanitized_output_always_allowed (cwd home : List (List Char))
    (raw : String) :
    validate_output_path cwd home (sanitize_output raw) = (true, none) := by
  have hslash : ('/' : Char) ∉ (sanitize_output raw).data := by
    intro hm
    exact absurd (sanitize_output_mem hm) (by decide)
  have hpre : cwd <+: resolvePosix cwd (sanitize_output raw).data := by
    rcases @resolvePosix_single cwd ((sanitize_output raw).data) hslash
      (sanitize_output_no_dotdot raw) with h | h
    · rw [h]
    · rw [h]
      exact List.prefix_append cwd _
  have hdot : expandResolveDir cwd home "." = cwd := rfl
  have hany : ALLOWED_OUTPUT_DIRS.any
      (fun d => (expandResolveDir cwd home d).isPrefixOf
        (resolvePosix cwd (sanitize_output raw).data)) = true := by
    refine List.any_eq_true.mpr ⟨".", by decide, ?_⟩
    rw [hdot]
    exact (isPrefixOf_true_iff _ _).mpr hpre
  rw [validate_output_path, if_pos hany]

